import Mathlib

/-!
Verification of the primitive Gaussian basis function core of pyquante2
(`pyquante2/basis/pgbf.py`), shallowly embedded over the real numbers.

The Python floats are modelled by `ℝ`; `numpy.sqrt`, `exp`, `pi` and the
real-valued `pow` by `Real.sqrt`, `Real.exp`, `Real.pi` and `Real.rpow`.
The helpers `fact2` and `norm2` are imported by the source from
`pyquante2.utils`, a module that is not part of the sources at hand, so they
are modelled from the specification text.  The one exception Python's builtin
`pow` makes for real arguments — raising `ZeroDivisionError` on
`pow(0.0, y)` with `y < 0` — is made explicit in the construction model,
since `pgbf.__init__` can hit it through `_normalize`.
-/

/-- Modelled from the spec: `fact2` (the double factorial `doublefact`) lives in
`pyquante2.utils`, which is outside the sources at hand.  Per the spec it is
1 for every argument `k ≤ 0` (in particular `fact2 (-1) = 1`) and otherwise
the product of the integers of the same parity as `k` down to 1 or 2. -/
def fact2 (k : ℤ) : ℤ :=
  if k ≤ 0 then 1 else k * fact2 (k - 2)
termination_by k.toNat
decreasing_by
  simp_wf
  omega

/-- Modelled from the spec: `norm2` (the spec's `sqnorm`) lives in
`pyquante2.utils`, outside the sources at hand.  Per the spec it is the
squared Euclidean norm of a 3-vector. -/
noncomputable def norm2 (d : ℝ × ℝ × ℝ) : ℝ :=
  d.1 ^ 2 + d.2.1 ^ 2 + d.2.2 ^ 2

/-- The `pgbf` value object of `pgbf.py`: exponent, origin, angular-momentum
powers, and the derived normalization constant stored by `_normalize`. -/
structure pgbf where
  exponent : ℝ
  origin : ℝ × ℝ × ℝ
  powers : ℤ × ℤ × ℤ
  norm : ℝ

/-- The value `pgbf._normalize` stores (THO eq. 2.2), transcribed from the
source: `sqrt(pow(2,2*(l+m+n)+1.5) * pow(exponent,l+m+n+1.5) / fact2(2l-1)
/ fact2(2m-1) / fact2(2n-1) / pow(pi,1.5))`, with real-valued powers. -/
noncomputable def normVal (a : ℝ) (p : ℤ × ℤ × ℤ) : ℝ :=
  Real.sqrt ((2 : ℝ) ^ (((2 * (p.1 + p.2.1 + p.2.2) : ℤ) : ℝ) + 1.5) *
    a ^ (((p.1 + p.2.1 + p.2.2 : ℤ) : ℝ) + 1.5) /
    (fact2 (2 * p.1 - 1) : ℝ) / (fact2 (2 * p.2.1 - 1) : ℝ) /
    (fact2 (2 * p.2.2 - 1) : ℝ) / Real.pi ^ (1.5 : ℝ))

/-- A fully initialized `pgbf`: the fields as stored by `__init__` once the
arity asserts have passed, with `norm` computed by `_normalize`. -/
noncomputable def pgbf.make (a : ℝ) (o : ℝ × ℝ × ℝ) (p : ℤ × ℤ × ℤ) : pgbf :=
  { exponent := a, origin := o, powers := p, norm := normVal a p }

/-- The ways `pgbf.__init__` can fail: an arity assert (the spec's
`InvalidArity`), or Python's builtin `pow` raising `ZeroDivisionError` inside
`_normalize` when the exponent is 0 and `l+m+n+1.5` is negative. -/
inductive PgbfError where
  | InvalidArity : PgbfError
  | ZeroDivisionError : PgbfError
deriving DecidableEq

open Classical in
/-- `pgbf.__init__`: asserts that origin and powers each have exactly 3
elements, converts the exponent, stores the fields and calls `_normalize`.
`pow(float(exponent), l+m+n+1.5)` raises `ZeroDivisionError` when the
exponent is 0 and `l+m+n+1.5 < 0`; every other input yields an object. -/
noncomputable def pgbf.create (a : ℝ) (origin : List ℝ) (powers : List ℤ) :
    Except PgbfError pgbf :=
  match origin, powers with
  | [x, y, z], [i, j, k] =>
    if a = 0 ∧ ((i + j + k : ℤ) : ℝ) + 1.5 < 0 then
      Except.error PgbfError.ZeroDivisionError
    else
      Except.ok (pgbf.make a (x, y, z) (i, j, k))
  | _, _ => Except.error PgbfError.InvalidArity

/-- `pgbf.__call__`: amplitude at a point, transcribed from the source:
`d = xyz - origin`, `d2 = norm2(d)`, result
`norm * d[0]**i * d[1]**j * d[2]**k * exp(-exponent*d2)`. -/
noncomputable def pgbf.evaluate (g : pgbf) (pt : ℝ × ℝ × ℝ) : ℝ :=
  let d : ℝ × ℝ × ℝ :=
    (pt.1 - g.origin.1, pt.2.1 - g.origin.2.1, pt.2.2 - g.origin.2.2)
  let d2 := norm2 d
  g.norm * d.1 ^ g.powers.1 * d.2.1 ^ g.powers.2.1 * d.2.2 ^ g.powers.2.2 *
    Real.exp (-g.exponent * d2)

/-- Reduction of `pgbf.create` on argument lists of arity exactly 3. -/
theorem create_cons (a x y z : ℝ) (i j k : ℤ) :
    pgbf.create a [x, y, z] [i, j, k] =
      if a = 0 ∧ ((i + j + k : ℤ) : ℝ) + 1.5 < 0 then
        Except.error PgbfError.ZeroDivisionError
      else Except.ok (pgbf.make a (x, y, z) (i, j, k)) := rfl

/-- The spec's normalization formula, written with the spec's own grouping:
`sqrt( 2^(2*(l+m+n)+1.5) * a^(l+m+n+1.5) / ( doublefact(2l-1) *
doublefact(2m-1) * doublefact(2n-1) ) / pi^1.5 )`, real-valued powers. -/
noncomputable def normSpec (a : ℝ) (p : ℤ × ℤ × ℤ) : ℝ :=
  Real.sqrt ((2 : ℝ) ^ (((2 * (p.1 + p.2.1 + p.2.2) : ℤ) : ℝ) + 1.5) *
    a ^ (((p.1 + p.2.1 + p.2.2 : ℤ) : ℝ) + 1.5) /
    ((fact2 (2 * p.1 - 1) : ℝ) * (fact2 (2 * p.2.1 - 1) : ℝ) *
      (fact2 (2 * p.2.2 - 1) : ℝ)) / Real.pi ^ (1.5 : ℝ))

/-- The double factorial of a positive argument is positive, and of a
non-positive argument is 1, so it is positive everywhere. -/
theorem fact2_pos (k : ℤ) : 0 < fact2 k := by
  induction k using fact2.induct with
  | case1 k h => rw [fact2]; simp [h]
  | case2 k h ih =>
    rw [fact2]
    simp only [if_neg h]
    exact mul_pos (by omega) ih

/-- C1: for every pgbf constructed with exponent `a` and powers `(l,m,n)`, the
stored normalization constant equals
`sqrt( 2^(2*(l+m+n)+1.5) * a^(l+m+n+1.5) / ( doublefact(2l-1) *
doublefact(2m-1) * doublefact(2n-1) ) / pi^1.5 )`, computed with real-valued
(non-integer) powers. -/
theorem create_norm_eq_normSpec (a x y z : ℝ) (i j k : ℤ) (g : pgbf)
    (hc : pgbf.create a [x, y, z] [i, j, k] = Except.ok g) :
    g.norm = normSpec a (i, j, k) := by
  rw [create_cons] at hc
  split at hc
  · simp at hc
  · injection hc with hc
    subst hc
    show normVal a (i, j, k) = normSpec a (i, j, k)
    unfold normVal normSpec
    congr 1
    ring

/-- Closed witness for C1 at exponent 1, origin and powers all zero. -/
theorem create_norm_eq_normSpec_witness :
    (pgbf.make 1 (0, 0, 0) (0, 0, 0)).norm = normSpec 1 (0, 0, 0) :=
  create_norm_eq_normSpec 1 0 0 0 0 0 0 (pgbf.make 1 (0, 0, 0) (0, 0, 0))
    (by simp [pgbf.create])

/-- C2: evaluation at a point `pt` returns
`norm * d.x^i * d.y^j * d.z^k * exp(-exponent * d2)` where `d = pt - origin`
component-wise and `d2 = d.x^2 + d.y^2 + d.z^2`. -/
theorem evaluate_eq_formula (g : pgbf) (pt : ℝ × ℝ × ℝ) :
    g.evaluate pt =
      g.norm * (pt.1 - g.origin.1) ^ g.powers.1 *
        (pt.2.1 - g.origin.2.1) ^ g.powers.2.1 *
        (pt.2.2 - g.origin.2.2) ^ g.powers.2.2 *
        Real.exp (-g.exponent *
          ((pt.1 - g.origin.1) ^ 2 + (pt.2.1 - g.origin.2.1) ^ 2 +
            (pt.2.2 - g.origin.2.2) ^ 2)) := rfl

set_option linter.unnecessarySeqFocus false in
/-- C3: construction fails with `InvalidArity` exactly when origin or powers
does not have exactly 3 elements (no object is produced in that case, since
the error branch of `Except` carries none), and in particular an origin of
arity 2 such as `(0,0)` fails with `InvalidArity`. -/
theorem create_invalidArity_iff (a : ℝ) (o : List ℝ) (p : List ℤ) :
    (pgbf.create a o p = Except.error PgbfError.InvalidArity ↔
      ¬(o.length = 3 ∧ p.length = 3)) ∧
    pgbf.create a [0, 0] [0, 0, 0] = Except.error PgbfError.InvalidArity := by
  refine ⟨?_, by simp [pgbf.create]⟩
  rcases o with _ | ⟨x, _ | ⟨y, _ | ⟨z, _ | ⟨w, o⟩⟩⟩⟩ <;>
    rcases p with _ | ⟨i, _ | ⟨j, _ | ⟨k, _ | ⟨l, p⟩⟩⟩⟩ <;>
      simp [pgbf.create] <;>
        first
          | omega
          | (split
             · simp
             · simp)

/-- C4: a pgbf constructed with exponent `a > 0` and powers `(0,0,0)`
evaluates at its own origin to exactly its stored norm; the displacement
factors are `0 ^ (0 : ℤ) = 1` and the exponential factor is `exp 0 = 1`. -/
theorem evaluate_origin_s_eq_norm (a x y z : ℝ) (g : pgbf) (_ha : 0 < a)
    (hc : pgbf.create a [x, y, z] [0, 0, 0] = Except.ok g) :
    g.evaluate (x, y, z) = g.norm := by
  rw [create_cons] at hc
  split at hc
  · simp at hc
  · injection hc with hc
    subst hc
    simp [pgbf.evaluate, pgbf.make, norm2]

/-- Closed witness for C4 at exponent 1, origin `(0,0,0)`. -/
theorem evaluate_origin_s_eq_norm_witness :
    (0 : ℝ) < 1 ∧
    (pgbf.make 1 (0, 0, 0) (0, 0, 0)).evaluate (0, 0, 0) =
      (pgbf.make 1 (0, 0, 0) (0, 0, 0)).norm :=
  ⟨by norm_num,
   evaluate_origin_s_eq_norm 1 0 0 0 (pgbf.make 1 (0, 0, 0) (0, 0, 0))
     (by norm_num) (by simp [pgbf.create])⟩

/-- C5: a pgbf with a valid (positive) exponent and non-negative powers of
which at least one is nonzero evaluates at its own origin to 0: the zero
displacement component raised to a positive power annihilates the product. -/
theorem evaluate_origin_p_eq_zero (a x y z : ℝ) (i j k : ℤ) (g : pgbf)
    (_ha : 0 < a) (_hnn : 0 ≤ i ∧ 0 ≤ j ∧ 0 ≤ k)
    (hnz : i ≠ 0 ∨ j ≠ 0 ∨ k ≠ 0)
    (hc : pgbf.create a [x, y, z] [i, j, k] = Except.ok g) :
    g.evaluate (x, y, z) = 0 := by
  rw [create_cons] at hc
  split at hc
  · simp at hc
  · injection hc with hc
    subst hc
    rcases hnz with h | h | h <;>
      simp [pgbf.evaluate, pgbf.make, norm2, zero_zpow _ h]

/-- Closed witness for C5 at the spec's concrete scenario 2: exponent 1,
origin `(0,0,0)`, powers `(1,0,0)`, evaluated at `(0,0,0)`. -/
theorem evaluate_origin_p_eq_zero_witness :
    (0 : ℝ) < 1 ∧
    (pgbf.make 1 (0, 0, 0) (1, 0, 0)).evaluate (0, 0, 0) = 0 :=
  ⟨by norm_num,
   evaluate_origin_p_eq_zero 1 0 0 0 1 0 0 (pgbf.make 1 (0, 0, 0) (1, 0, 0))
     (by norm_num) (by norm_num) (by norm_num) (by simp [pgbf.create])⟩

/-- C6: a pgbf constructed with exponent `> 0` and non-negative integer powers
stores a strictly positive norm; the structure is immutable, so the field
keeps this value for the object's whole lifetime. -/
theorem create_norm_pos (a x y z : ℝ) (i j k : ℤ) (g : pgbf) (ha : 0 < a)
    (_hi : 0 ≤ i) (_hj : 0 ≤ j) (_hk : 0 ≤ k)
    (hc : pgbf.create a [x, y, z] [i, j, k] = Except.ok g) :
    0 < g.norm := by
  rw [create_cons] at hc
  split at hc
  · simp at hc
  · injection hc with hc
    subst hc
    show 0 < normVal a (i, j, k)
    unfold normVal
    apply Real.sqrt_pos.mpr
    have h2 : (0 : ℝ) < (2 : ℝ) ^ (((2 * (i + j + k) : ℤ) : ℝ) + 1.5) :=
      Real.rpow_pos_of_pos (by norm_num) _
    have hA : (0 : ℝ) < a ^ (((i + j + k : ℤ) : ℝ) + 1.5) :=
      Real.rpow_pos_of_pos ha _
    have hpi : (0 : ℝ) < Real.pi ^ (1.5 : ℝ) :=
      Real.rpow_pos_of_pos Real.pi_pos _
    have f1 : (0 : ℝ) < (fact2 (2 * i - 1) : ℝ) := by
      exact_mod_cast fact2_pos (2 * i - 1)
    have f2 : (0 : ℝ) < (fact2 (2 * j - 1) : ℝ) := by
      exact_mod_cast fact2_pos (2 * j - 1)
    have f3 : (0 : ℝ) < (fact2 (2 * k - 1) : ℝ) := by
      exact_mod_cast fact2_pos (2 * k - 1)
    exact div_pos (div_pos (div_pos (div_pos (mul_pos h2 hA) f1) f2) f3) hpi

/-- Closed witness for C6 at exponent 2, powers `(1,0,0)`. -/
theorem create_norm_pos_witness :
    (0 : ℝ) < 2 ∧ 0 < (pgbf.make 2 (0, 0, 0) (1, 0, 0)).norm :=
  ⟨by norm_num,
   create_norm_pos 2 0 0 0 1 0 0 (pgbf.make 2 (0, 0, 0) (1, 0, 0))
     (by norm_num) (by norm_num) (by norm_num) (by norm_num)
     (by simp [pgbf.create])⟩

/-- C7: round-trip — a successful construction stores exactly the exponent,
origin and powers that were supplied, readable back unchanged. -/
theorem create_roundTrip (a x y z : ℝ) (i j k : ℤ) (g : pgbf)
    (hc : pgbf.create a [x, y, z] [i, j, k] = Except.ok g) :
    g.exponent = a ∧ g.origin = (x, y, z) ∧ g.powers = (i, j, k) := by
  rw [create_cons] at hc
  split at hc
  · simp at hc
  · injection hc with hc
    subst hc
    exact ⟨rfl, rfl, rfl⟩

/-- Closed witness for C7 at exponent 1, origin `(1,2,3)`, powers `(0,1,2)`. -/
theorem create_roundTrip_witness :
    (pgbf.make 1 (1, 2, 3) (0, 1, 2)).exponent = 1 ∧
    (pgbf.make 1 (1, 2, 3) (0, 1, 2)).origin = (1, 2, 3) ∧
    (pgbf.make 1 (1, 2, 3) (0, 1, 2)).powers = (0, 1, 2) :=
  create_roundTrip 1 1 2 3 0 1 2 (pgbf.make 1 (1, 2, 3) (0, 1, 2))
    (by simp [pgbf.create])

/-- C8: the double-factorial helper used by normalization returns 1 at
argument `-1` (that is, `doublefact(2l-1) = 1` when `l = 0`), and more
generally returns 1 for every argument `k ≤ 0`, rather than failing or
returning 0. -/
theorem fact2_nonpos_eq_one :
    fact2 (2 * 0 - 1) = 1 ∧ ∀ k : ℤ, k ≤ 0 → fact2 k = 1 := by
  constructor
  · simp [fact2]
  · intro k hk
    rw [fact2]
    exact if_pos hk

/-- Closed witness for C8 at argument `-5`. -/
theorem fact2_nonpos_eq_one_witness : (-5 : ℤ) ≤ 0 ∧ fact2 (-5) = 1 :=
  ⟨by decide, fact2_nonpos_eq_one.2 (-5) (by decide)⟩

/-- C9: determinism — two constructions from identical `(exponent, origin,
powers)` inputs store identical norms and evaluate identically at every
shared point. -/
theorem create_deterministic (a : ℝ) (o : List ℝ) (p : List ℤ)
    (g₁ g₂ : pgbf) (pt : ℝ × ℝ × ℝ)
    (h₁ : pgbf.create a o p = Except.ok g₁)
    (h₂ : pgbf.create a o p = Except.ok g₂) :
    g₁.norm = g₂.norm ∧ g₁.evaluate pt = g₂.evaluate pt := by
  rw [h₁] at h₂
  injection h₂ with h₂
  subst h₂
  exact ⟨rfl, rfl⟩

/-- Closed witness for C9 at exponent 1, origin and powers zero, shared
evaluation point `(1,2,3)`. -/
theorem create_deterministic_witness :
    (pgbf.make 1 (0, 0, 0) (0, 0, 0)).norm =
      (pgbf.make 1 (0, 0, 0) (0, 0, 0)).norm ∧
    (pgbf.make 1 (0, 0, 0) (0, 0, 0)).evaluate (1, 2, 3) =
      (pgbf.make 1 (0, 0, 0) (0, 0, 0)).evaluate (1, 2, 3) :=
  create_deterministic 1 [0, 0, 0] [0, 0, 0]
    (pgbf.make 1 (0, 0, 0) (0, 0, 0)) (pgbf.make 1 (0, 0, 0) (0, 0, 0))
    (1, 2, 3) (by simp [pgbf.create]) (by simp [pgbf.create])

/-- C10 counterexample: construction does not succeed for every value of
correct arity — with exponent 0 and powers `(-1,-1,-1)`, `_normalize`
computes `pow(0.0, -1.5)`, which raises `ZeroDivisionError`, so no object is
returned. -/
theorem create_zero_exponent_raises :
    pgbf.create 0 [0, 0, 0] [-1, -1, -1] =
      Except.error PgbfError.ZeroDivisionError := by
  rw [create_cons]
  rw [if_pos]
  norm_num

/-- C10 amended: construction checks nothing beyond arity except the one
failure Python's `pow` forces — for every exponent and every 3-element powers
tuple (negative integers included), unless the exponent is 0 and
`i+j+k+1.5 < 0`, construction succeeds and returns the initialized object. -/
theorem create_arity_only_amended (a x y z : ℝ) (i j k : ℤ)
    (h : ¬(a = 0 ∧ ((i + j + k : ℤ) : ℝ) + 1.5 < 0)) :
    pgbf.create a [x, y, z] [i, j, k] =
      Except.ok (pgbf.make a (x, y, z) (i, j, k)) := by
  rw [create_cons]
  exact if_neg h

/-- Closed witness for the amended C10 at the unsupported input of a negative
exponent `-1` and a negative power `-1`: construction still succeeds. -/
theorem create_arity_only_amended_witness :
    ¬((-1 : ℝ) = 0 ∧ (((-1 : ℤ) + 0 + 0 : ℤ) : ℝ) + 1.5 < 0) ∧
    pgbf.create (-1) [0, 0, 0] [-1, 0, 0] =
      Except.ok (pgbf.make (-1) (0, 0, 0) (-1, 0, 0)) :=
  ⟨by norm_num, create_arity_only_amended (-1) 0 0 0 (-1) 0 0 (by norm_num)⟩
